import Mathlib

/-!
# Verification of the card-snaps hybrid online/offline sync layer

Shallow embedding of `src/card-snaps/services/api.ts` (the `ApiService`
class) and of the community endpoint of the Express server
(`src/unnamed/part_000`).  `localStorage` is modelled as a record with one
field per storage key of `KEYS`; the connectivity oracle
(`navigator.onLine`) is a boolean parameter; every `fetch` is modelled by a
`RemoteOutcome` parameter describing what the network would have answered
(network error / HTTP response with ok-flag and JSON body); JavaScript
exceptions become `Except String`.  Each async method of the class becomes
a pure function from the service state, the connectivity flag, the remote
outcome and the method arguments to an `Op` record carrying the result,
the new state, and whether a remote request was issued.
-/

set_option autoImplicit false

namespace CardSnaps

/-- A flashcard, from `Deck.cards` (front text, back text, color tag). -/
structure Card where
  id : String
  front : String
  back : String
  color : String
  deriving DecidableEq, Repr

/-- A study deck, mirroring the `Deck` type used by `api.ts`. -/
structure Deck where
  id : String
  title : String
  description : String
  cards : List Card
  createdAt : Nat
  deriving DecidableEq, Repr

/-- A free-form note, mirroring the `Note` type used by `api.ts`. -/
structure Note where
  id : String
  title : String
  subject : String
  content : String
  background : String
  createdAt : Nat
  lastModified : Nat
  deriving DecidableEq, Repr

/-- An exam record, mirroring the `Test` type used by `api.ts`. -/
structure Test where
  id : String
  title : String
  date : Nat
  topics : List String
  deriving DecidableEq, Repr

/-- User statistics; the goal payloads are opaque to the sync layer. -/
structure UserStats where
  xp : Nat
  goals : List String
  deriving DecidableEq, Repr

/-- A chat session; message payloads are opaque to the sync layer. -/
structure ChatSession where
  id : String
  title : String
  messages : List String
  lastActive : Nat
  deriving DecidableEq, Repr

/-- The `'deck' | 'note'` discriminator of a community item. -/
inductive CKind where
  | deck
  | note
  deriving DecidableEq, Repr

/-- The `Deck | Note` payload embedded in a community item. -/
inductive ItemData where
  | deck (d : Deck)
  | note (n : Note)
  deriving DecidableEq, Repr

/-- `item.title` for a `Deck | Note` value. -/
def ItemData.title : ItemData → String
  | .deck d => d.title
  | .note n => n.title

/-- A published community item (`CommunityItem` in `api.ts`). -/
structure CommunityItem where
  id : String
  type : CKind
  title : String
  description : String
  author : String
  data : ItemData
  downloads : Nat
  timestamp : Nat
  deriving DecidableEq, Repr

/-- The user object is an opaque flat JSON object (string key/value pairs);
the sync layer only spreads and stores it, never inspects it. -/
abbrev UserObj := List (String × String)

/-- The body of a successful `/auth/login` or `/auth/register` response. -/
structure AuthData where
  token : String
  user : UserObj
  deriving DecidableEq, Repr

/-- The persisted `localStorage` contents, one field per key of `KEYS`
(`cardsnaps_token`, `cardsnaps_user`, `cardsnaps_decks`, `cardsnaps_notes`,
`cardsnaps_tests`, `cardsnaps_stats`, `cardsnaps_chats`,
`cardsnaps_community_db`); an absent key is `none` / `[]`, matching the
defaults passed to `getLocal`. -/
structure LocalStore where
  token : Option String
  user : Option UserObj
  decks : List Deck
  notes : List Note
  tests : List Test
  stats : Option UserStats
  chats : List ChatSession
  community : List CommunityItem
  deriving DecidableEq, Repr

/-- The mutable state of the `ApiService` singleton: the in-memory bearer
token plus the local store. -/
structure ApiState where
  token : Option String
  store : LocalStore
  deriving DecidableEq, Repr

/-- What the network would answer to one `fetch`: a thrown network error
(also used for the `AbortSignal.timeout` abort), or an HTTP response with
its `ok` flag and parsed JSON body. -/
inductive RemoteOutcome (β : Type) where
  | netError
  | status (ok : Bool) (body : β)
  deriving DecidableEq, Repr

/-- Result of running one `ApiService` method: the value returned (or the
error message of a rejected promise), the service state afterwards, and
whether a remote request was issued. -/
structure Op (α : Type) where
  result : Except String α
  state : ApiState
  requested : Bool
  deriving Repr

/-- `true` iff the `Except` carries a value (the promise resolved). -/
def isOk {ε α : Type} : Except ε α → Bool
  | .ok _ => true
  | .error _ => false

/-! ## List helpers mirroring the JavaScript array operations -/

/-- `Array.prototype.findIndex`, as an `Option Nat` (JS returns `-1` for
"not found"). -/
def jsFindIndex {α : Type} (p : α → Bool) : List α → Option Nat
  | [] => none
  | a :: as => if p a then some 0 else (jsFindIndex p as).map (· + 1)

/-- In-place assignment `xs[i] = f xs[i]` at index `i`. -/
def modifyAt {α : Type} (f : α → α) : Nat → List α → List α
  | _, [] => []
  | 0, a :: as => f a :: as
  | n + 1, a :: as => a :: modifyAt f n as

/-- JS property assignment `o[k] = v` on a flat object: overwrite the key
in place when present, append it otherwise. -/
def objSet (o : UserObj) (k v : String) : UserObj :=
  if o.any (fun kv => kv.1 == k) then
    o.map (fun kv => if kv.1 == k then (k, v) else kv)
  else o ++ [(k, v)]

/-- JS object spread `\x7b ...a, ...b \x7d` for flat objects. -/
def objMerge (a b : UserObj) : UserObj :=
  b.foldl (fun acc kv => objSet acc kv.1 kv.2) a

/-! ## Auth operations (`api.ts` lines 60-136) -/

/-- `isAuthenticated()`: `!!this.token`. -/
def isAuthenticated (s : ApiState) : Bool :=
  s.token.isSome

/-- `login(email, password)` (`api.ts` 64-79).  Offline it throws
`"Offline. Cannot login."` before any request; a network error rejects
with the browser's fetch failure; a non-ok status throws
`"Login failed"`; on success the token is stored in memory and in
`localStorage` together with the user object, and the user is returned. -/
def login (s : ApiState) (online : Bool) (r : RemoteOutcome AuthData)
    (_email _password : String) : Op UserObj :=
  if !online then
    { result := .error "Offline. Cannot login.", state := s, requested := false }
  else
    match r with
    | .netError => { result := .error "Failed to fetch", state := s, requested := true }
    | .status ok body =>
      if !ok then { result := .error "Login failed", state := s, requested := true }
      else
        { result := .ok body.user
          state := { token := some body.token
                     store := { s.store with token := some body.token, user := some body.user } }
          requested := true }

/-- `register(email, password, name)` (`api.ts` 81-96), same shape as
`login` with messages `"Offline. Cannot register."` / `"Registration
failed"`. -/
def register (s : ApiState) (online : Bool) (r : RemoteOutcome AuthData)
    (_email _password _name : String) : Op UserObj :=
  if !online then
    { result := .error "Offline. Cannot register.", state := s, requested := false }
  else
    match r with
    | .netError => { result := .error "Failed to fetch", state := s, requested := true }
    | .status ok body =>
      if !ok then { result := .error "Registration failed", state := s, requested := true }
      else
        { result := .ok body.user
          state := { token := some body.token
                     store := { s.store with token := some body.token, user := some body.user } }
          requested := true }

/-- `getMe()` (`api.ts` 98-110): remote profile fetch when authenticated
and online, cached into the user slot on success; any failure falls back
to the local user slot. -/
def getMe (s : ApiState) (online : Bool) (r : RemoteOutcome UserObj) :
    Op (Option UserObj) :=
  if s.token.isSome && online then
    match r with
    | .netError => { result := .ok s.store.user, state := s, requested := true }
    | .status ok body =>
      if ok then
        { result := .ok (some body)
          state := { s with store := { s.store with user := some body } }
          requested := true }
      else { result := .ok s.store.user, state := s, requested := true }
  else { result := .ok s.store.user, state := s, requested := false }

/-- `saveProfile(profile)` (`api.ts` 112-117): purely local spread-merge
into the user slot; no request is ever issued. -/
def saveProfile (s : ApiState) (profile : UserObj) : Op UserObj :=
  let current := s.store.user.getD []
  let updated := objMerge current profile
  { result := .ok updated
    state := { s with store := { s.store with user := some updated } }
    requested := false }

/-- `savePreferences(themeMode, colorScheme, enableSeasonal)`
(`api.ts` 119-130): fire-and-forget remote push when authenticated and
online (its outcome is discarded by `.catch`), then local update of the
three preference keys on the user slot. -/
def savePreferences (s : ApiState) (online : Bool) (_r : RemoteOutcome Unit)
    (themeMode colorScheme : String) (enableSeasonal : Bool) : Op Unit :=
  let requested := s.token.isSome && online
  let current := s.store.user.getD []
  let updated := objSet (objSet (objSet current "themeMode" themeMode)
      "colorScheme" colorScheme) "enableSeasonal" (toString enableSeasonal)
  { result := .ok ()
    state := { s with store := { s.store with user := some updated } }
    requested := requested }

/-- `logout()` (`api.ts` 132-136): clears the in-memory token and removes
the token and user keys from `localStorage`; everything else is untouched
and no request is issued. -/
def logout (s : ApiState) : Op Unit :=
  { result := .ok ()
    state := { token := none
               store := { s.store with token := none, user := none } }
    requested := false }

/-! ## Hybrid data operations: decks (`api.ts` lines 140-197) -/

/-- `getDecks()` (`api.ts` 140-152): when authenticated and online, fetch;
on an ok response overwrite the decks mirror and return the body; on a
network error or non-ok status fall back to the mirror.  Otherwise return
the mirror without contacting the network. -/
def getDecks (s : ApiState) (online : Bool) (r : RemoteOutcome (List Deck)) :
    Op (List Deck) :=
  if s.token.isSome && online then
    match r with
    | .netError => { result := .ok s.store.decks, state := s, requested := true }
    | .status ok body =>
      if ok then
        { result := .ok body
          state := { s with store := { s.store with decks := body } }
          requested := true }
      else { result := .ok s.store.decks, state := s, requested := true }
  else { result := .ok s.store.decks, state := s, requested := false }

/-- `createDeck(deck)` (`api.ts` 154-168): best-effort remote POST (its
outcome discarded), then an unconditional `unshift` of the deck onto the
local mirror — no id check. -/
def createDeck (s : ApiState) (online : Bool) (_r : RemoteOutcome Unit)
    (deck : Deck) : Op Deck :=
  let requested := s.token.isSome && online
  { result := .ok deck
    state := { s with store := { s.store with decks := deck :: s.store.decks } }
    requested := requested }

/-- `updateDeck(deck)` (`api.ts` 170-186): best-effort remote PUT, then a
`findIndex` on the local mirror; when the id is found the element is
replaced in place, otherwise the mirror is left untouched (the deck is
not inserted). -/
def updateDeck (s : ApiState) (online : Bool) (_r : RemoteOutcome Unit)
    (deck : Deck) : Op Unit :=
  let requested := s.token.isSome && online
  let decks := s.store.decks
  let decks' := match jsFindIndex (fun d => d.id == deck.id) decks with
    | some i => decks.set i deck
    | none => decks
  { result := .ok ()
    state := { s with store := { s.store with decks := decks' } }
    requested := requested }

/-- `deleteDeck(id)` (`api.ts` 188-197): best-effort remote DELETE, then
filter the id out of the local mirror. -/
def deleteDeck (s : ApiState) (online : Bool) (_r : RemoteOutcome Unit)
    (id : String) : Op Unit :=
  let requested := s.token.isSome && online
  { result := .ok ()
    state := { s with store := { s.store with decks := s.store.decks.filter (fun d => !(d.id == id)) } }
    requested := requested }

/-! ## Notes (`api.ts` lines 200-239) -/

/-- `getNotes()` (`api.ts` 200-212), same shape as `getDecks`. -/
def getNotes (s : ApiState) (online : Bool) (r : RemoteOutcome (List Note)) :
    Op (List Note) :=
  if s.token.isSome && online then
    match r with
    | .netError => { result := .ok s.store.notes, state := s, requested := true }
    | .status ok body =>
      if ok then
        { result := .ok body
          state := { s with store := { s.store with notes := body } }
          requested := true }
      else { result := .ok s.store.notes, state := s, requested := true }
  else { result := .ok s.store.notes, state := s, requested := false }

/-- `saveNote(note)` (`api.ts` 214-230): best-effort remote POST, then a
match-or-unshift upsert on the local mirror (`findIndex`; replace in place
when found, `unshift` otherwise). -/
def saveNote (s : ApiState) (online : Bool) (_r : RemoteOutcome Unit)
    (note : Note) : Op Note :=
  let requested := s.token.isSome && online
  let notes := s.store.notes
  let notes' := match jsFindIndex (fun n => n.id == note.id) notes with
    | some i => notes.set i note
    | none => note :: notes
  { result := .ok note
    state := { s with store := { s.store with notes := notes' } }
    requested := requested }

/-- `deleteNote(id)` (`api.ts` 232-239). -/
def deleteNote (s : ApiState) (online : Bool) (_r : RemoteOutcome Unit)
    (id : String) : Op Unit :=
  let requested := s.token.isSome && online
  { result := .ok ()
    state := { s with store := { s.store with notes := s.store.notes.filter (fun n => !(n.id == id)) } }
    requested := requested }

/-! ## Tests (`api.ts` lines 242-271) -/

/-- `getTests()` (`api.ts` 242-250): when authenticated and online, fetch;
on an ok response the body is returned directly — unlike `getDecks`, the
local mirror is NOT overwritten (`this.setLocal` is never called there);
otherwise fall back to the mirror. -/
def getTests (s : ApiState) (online : Bool) (r : RemoteOutcome (List Test)) :
    Op (List Test) :=
  if s.token.isSome && online then
    match r with
    | .netError => { result := .ok s.store.tests, state := s, requested := true }
    | .status ok body =>
      if ok then { result := .ok body, state := s, requested := true }
      else { result := .ok s.store.tests, state := s, requested := true }
  else { result := .ok s.store.tests, state := s, requested := false }

/-- `addTest(test)` (`api.ts` 252-262): best-effort remote POST, then
`push` — the test is appended at the END of the local mirror. -/
def addTest (s : ApiState) (online : Bool) (_r : RemoteOutcome Unit)
    (test : Test) : Op Test :=
  let requested := s.token.isSome && online
  { result := .ok test
    state := { s with store := { s.store with tests := s.store.tests ++ [test] } }
    requested := requested }

/-- `deleteTest(id)` (`api.ts` 264-271). -/
def deleteTest (s : ApiState) (online : Bool) (_r : RemoteOutcome Unit)
    (id : String) : Op Unit :=
  let requested := s.token.isSome && online
  { result := .ok ()
    state := { s with store := { s.store with tests := s.store.tests.filter (fun t => !(t.id == id)) } }
    requested := requested }

/-! ## Stats (`api.ts` lines 274-295) -/

/-- `getStats()` (`api.ts` 274-286): on an ok response the body is cached
only when non-null (`if(stats) this.setLocal(...)`) and returned either
way; failures fall back to the mirror. -/
def getStats (s : ApiState) (online : Bool) (r : RemoteOutcome (Option UserStats)) :
    Op (Option UserStats) :=
  if s.token.isSome && online then
    match r with
    | .netError => { result := .ok s.store.stats, state := s, requested := true }
    | .status ok body =>
      if ok then
        match body with
        | some st =>
          { result := .ok (some st)
            state := { s with store := { s.store with stats := some st } }
            requested := true }
        | none => { result := .ok none, state := s, requested := true }
      else { result := .ok s.store.stats, state := s, requested := true }
  else { result := .ok s.store.stats, state := s, requested := false }

/-- `syncStats(stats)` (`api.ts` 288-295): best-effort remote POST, then
unconditional overwrite of the local stats slot. -/
def syncStats (s : ApiState) (online : Bool) (_r : RemoteOutcome Unit)
    (stats : UserStats) : Op Unit :=
  let requested := s.token.isSome && online
  { result := .ok ()
    state := { s with store := { s.store with stats := some stats } }
    requested := requested }

/-! ## Chats (`api.ts` lines 298-319) -/

/-- `getChatSessions()` (`api.ts` 298-306): like `getTests`, an ok
response is returned directly WITHOUT updating the local mirror. -/
def getChatSessions (s : ApiState) (online : Bool)
    (r : RemoteOutcome (List ChatSession)) : Op (List ChatSession) :=
  if s.token.isSome && online then
    match r with
    | .netError => { result := .ok s.store.chats, state := s, requested := true }
    | .status ok body =>
      if ok then { result := .ok body, state := s, requested := true }
      else { result := .ok s.store.chats, state := s, requested := true }
  else { result := .ok s.store.chats, state := s, requested := false }

/-- `saveChatSession(session)` (`api.ts` 308-319): best-effort remote
POST, then a match-or-unshift upsert like `saveNote`. -/
def saveChatSession (s : ApiState) (online : Bool) (_r : RemoteOutcome Unit)
    (session : ChatSession) : Op Unit :=
  let requested := s.token.isSome && online
  let sessions := s.store.chats
  let sessions' := match jsFindIndex (fun c => c.id == session.id) sessions with
    | some i => sessions.set i session
    | none => session :: sessions
  { result := .ok ()
    state := { s with store := { s.store with chats := sessions' } }
    requested := requested }

/-! ## Community (`api.ts` lines 322-412) and the server endpoint
(`src/unnamed/part_000` lines 356-372) -/

/-- The description given to a shared item:
`(item as any).description || (item as any).subject || 'No description'`
— a deck has no `subject` and a note has no `description`, and an empty
string is falsy in JS. -/
def shareDescription : ItemData → String
  | .deck d => if d.description == "" then "No description" else d.description
  | .note n => if n.subject == "" then "No description" else n.subject

/-- `_localShare(item)` (`api.ts` 373-379): `unshift` the item onto the
community mirror unless an entry with the same id already exists, in which
case nothing changes. -/
def localShare (community : List CommunityItem) (item : CommunityItem) :
    List CommunityItem :=
  if (community.find? (fun c => c.id == item.id)).isSome then community
  else item :: community

/-- `shareToCommunity(item, type, authorName)` (`api.ts` 322-347): build a
fresh `CommunityItem` (the uuid and clock are parameters), best-effort
remote POST when online, then `_localShare` it; always resolves. -/
def shareToCommunity (s : ApiState) (online : Bool) (_r : RemoteOutcome Unit)
    (item : ItemData) (type : CKind) (authorName : String)
    (uuid : String) (now : Nat) : Op Unit :=
  let sharedItem : CommunityItem :=
    { id := uuid, type := type, title := item.title
      description := shareDescription item
      author := authorName, data := item, downloads := 0, timestamp := now }
  { result := .ok ()
    state := { s with store := { s.store with community := localShare s.store.community sharedItem } }
    requested := online }

/-- The fixed seed set built by `_localGetCommunity` (`api.ts` 385-398);
the clock value at seeding time is a parameter. -/
def communitySeeds (now : Nat) : List CommunityItem :=
  [ { id := "seed-1", type := .deck, title := "Biology: Cell Structure"
      description := "Deep dive into mitochondria and ribbons."
      author := "Dr. Science", downloads := 124, timestamp := now
      data := .deck { id := "s1", title := "Biology: Cell Structure"
                      description := "Deep dive into mitochondria."
                      cards := [{ id := "c1", front := "Powerhouse?", back := "Mitochondria", color := "bg-green-100" }]
                      createdAt := now } },
    { id := "seed-2", type := .deck, title := "Spanish Verbs 101"
      description := "Essential conjugation for beginners."
      author := "Se√±orita A", downloads := 45, timestamp := now - 100000
      data := .deck { id := "s2", title := "Spanish Verbs 101"
                      description := "Conjugations."
                      cards := [{ id := "c2", front := "Ser", back := "To be", color := "bg-orange-100" }]
                      createdAt := now } },
    { id := "seed-3", type := .note, title := "Calculus Cheat Sheet"
      description := "Derivatives and Integrals quick ref."
      author := "MathWhiz", downloads := 89, timestamp := now - 200000
      data := .note { id := "s3", title := "Calculus Cheat Sheet", subject := "Math"
                      content := "<b>Power Rule:</b> nx^(n-1)", background := "grid"
                      createdAt := now, lastModified := now } } ]

/-- `_localGetCommunity()` (`api.ts` 381-403): return the community
mirror, except that an empty mirror is first replaced by (and persisted
as) the fixed seed set. -/
def localGetCommunity (store : LocalStore) (now : Nat) :
    List CommunityItem × LocalStore :=
  if store.community.isEmpty then
    (communitySeeds now, { store with community := communitySeeds now })
  else (store.community, store)

/-- `getCommunityItems()` (`api.ts` 349-361): when online, fetch with a
2.5 s abort signal (a timeout aborts the fetch and lands in the same catch
as a network error); an ok response overwrites the community mirror and is
returned; every other path falls back to `_localGetCommunity()`. -/
def getCommunityItems (s : ApiState) (online : Bool)
    (r : RemoteOutcome (List CommunityItem)) (now : Nat) :
    Op (List CommunityItem) :=
  if online then
    match r with
    | .netError =>
      let ls := localGetCommunity s.store now
      { result := .ok ls.1, state := { s with store := ls.2 }, requested := true }
    | .status ok body =>
      if ok then
        { result := .ok body
          state := { s with store := { s.store with community := body } }
          requested := true }
      else
        let ls := localGetCommunity s.store now
        { result := .ok ls.1, state := { s with store := ls.2 }, requested := true }
  else
    let ls := localGetCommunity s.store now
    { result := .ok ls.1, state := { s with store := ls.2 }, requested := false }

/-- `_localIncrement(id)` (`api.ts` 405-412): `findIndex` on the community
mirror; when found, `community[index].downloads += 1`, otherwise nothing
changes. -/
def localIncrement (community : List CommunityItem) (id : String) :
    List CommunityItem :=
  match jsFindIndex (fun c => c.id == id) community with
  | some i => modifyAt (fun c => { c with downloads := c.downloads + 1 }) i community
  | none => community

/-- `incrementDownload(communityId)` (`api.ts` 363-370): optimistic local
increment first, then a best-effort remote POST when online; always
resolves. -/
def incrementDownload (s : ApiState) (online : Bool) (_r : RemoteOutcome Unit)
    (communityId : String) : Op Unit :=
  { result := .ok ()
    state := { s with store := { s.store with community := localIncrement s.store.community communityId } }
    requested := online }

/-- JSON body answered by `POST /api/community`. -/
structure CommunityPostResponse where
  success : Bool
  message : Option String
  respId : Option String
  deriving DecidableEq, Repr

/-- The `POST /api/community` handler of the Express server
(`src/unnamed/part_000` lines 356-372): when the body's id already exists
in `db.data.community`, answer `\x7b success: true, message: "Already
shared" \x7d` without touching the store; otherwise `unshift` a new item
(a falsy/empty id is replaced by a freshly generated uuid, downloads reset
to 0, timestamp taken from the server clock) and answer success with its
id. -/
def postCommunity (community : List CommunityItem) (body : CommunityItem)
    (freshId : String) (now : Nat) :
    List CommunityItem × CommunityPostResponse :=
  if (community.find? (fun i => i.id == body.id)).isSome then
    (community, { success := true, message := some "Already shared", respId := none })
  else
    let newItem : CommunityItem :=
      { id := if body.id == "" then freshId else body.id
        type := body.type, title := body.title, description := body.description
        author := body.author, data := body.data, downloads := 0, timestamp := now }
    (newItem :: community, { success := true, message := none, respId := some newItem.id })

/-! ## Sample data for concrete evaluations -/

/-- An entirely empty local store (every `KEYS` slot absent). -/
def store0 : LocalStore :=
  { token := none, user := none, decks := [], notes := [], tests := []
    stats := none, chats := [], community := [] }

def deckOld : Deck := { id := "d1", title := "Old", description := "", cards := [], createdAt := 0 }

def deckNew : Deck := { id := "d1", title := "New", description := "", cards := [], createdAt := 0 }

def deckOther : Deck := { id := "d0", title := "Other", description := "", cards := [], createdAt := 0 }

def noteOld : Note :=
  { id := "n1", title := "Old", subject := "", content := "", background := "", createdAt := 0, lastModified := 0 }

def noteNew : Note :=
  { id := "n1", title := "New", subject := "", content := "", background := "", createdAt := 0, lastModified := 1 }

def noteOther : Note :=
  { id := "n0", title := "Other", subject := "", content := "", background := "", createdAt := 0, lastModified := 0 }

def testOld : Test := { id := "t0", title := "First", date := 1, topics := [] }

def testNew : Test := { id := "t1", title := "Second", date := 2, topics := [] }

def chatOld : ChatSession := { id := "c1", title := "Old", messages := [], lastActive := 0 }

def chatNew : ChatSession := { id := "c1", title := "New", messages := ["hi"], lastActive := 1 }

def chatOther : ChatSession := { id := "c0", title := "Other", messages := [], lastActive := 0 }

def commA : CommunityItem :=
  { id := "u1", type := .deck, title := "A", description := "d", author := "a"
    data := .deck deckOther, downloads := 3, timestamp := 0 }

def commB : CommunityItem :=
  { id := "u2", type := .note, title := "B", description := "d", author := "b"
    data := .note noteOther, downloads := 0, timestamp := 0 }

/-! ## Helper lemmas about the JS array helpers -/

theorem jsFindIndex_eq_none {α : Type} (p : α → Bool) (l : List α)
    (h : ∀ x ∈ l, p x = false) : jsFindIndex p l = none := by
  induction l with
  | nil => rfl
  | cons a as ih =>
    have ha : p a = false := h a (List.mem_cons_self a as)
    have has := ih (fun x hx => h x (List.mem_cons_of_mem a hx))
    simp [jsFindIndex, ha, has]

theorem jsFindIndex_append_cons {α : Type} (p : α → Bool) (b : α) (l₂ : List α)
    (hb : p b = true) (l₁ : List α) (h : ∀ x ∈ l₁, p x = false) :
    jsFindIndex p (l₁ ++ b :: l₂) = some l₁.length := by
  induction l₁ with
  | nil => simp [jsFindIndex, hb]
  | cons a as ih =>
    have ha : p a = false := h a (List.mem_cons_self a as)
    have has := ih (fun x hx => h x (List.mem_cons_of_mem a hx))
    simp [jsFindIndex, ha, has]

theorem set_length_append_cons {α : Type} (d b : α) (l₂ : List α) (l₁ : List α) :
    (l₁ ++ b :: l₂).set l₁.length d = l₁ ++ d :: l₂ := by
  induction l₁ with
  | nil => rfl
  | cons a as ih => simp [List.set, ih]

theorem modifyAt_length_append_cons {α : Type} (f : α → α) (b : α) (l₂ : List α)
    (l₁ : List α) :
    modifyAt f l₁.length (l₁ ++ b :: l₂) = l₁ ++ f b :: l₂ := by
  induction l₁ with
  | nil => rfl
  | cons a as ih => simpa [modifyAt] using ih

theorem countP_append_cons_unique {α : Type} (p : α → Bool) (l₁ l₂ : List α) (d : α)
    (h1 : ∀ x ∈ l₁, p x = false) (h2 : ∀ x ∈ l₂, p x = false) (hd : p d = true) :
    (l₁ ++ d :: l₂).countP p = 1 := by
  have z1 : l₁.countP p = 0 := List.countP_eq_zero.mpr (fun a ha => by simp [h1 a ha])
  have z2 : l₂.countP p = 0 := List.countP_eq_zero.mpr (fun a ha => by simp [h2 a ha])
  simp [List.countP_append, List.countP_cons, z1, z2, hd]

theorem filter_idem {α : Type} (p : α → Bool) (l : List α) :
    (l.filter p).filter p = l.filter p :=
  List.filter_eq_self.mpr (fun _ ha => (List.mem_filter.mp ha).2)

/-! ## Claim theorems -/

/-- C7: for every collection with a delete operation (decks, notes,
tests) and every id, deleting is idempotent — running the operation a
second time leaves the whole service state exactly as after the first
run — and after one run no item with that id remains in the local
mirror. -/
theorem delete_item_idempotent (s : ApiState) (online : Bool)
    (r₁ r₂ : RemoteOutcome Unit) (id : String) :
    ((deleteDeck (deleteDeck s online r₁ id).state online r₂ id).state
        = (deleteDeck s online r₁ id).state ∧
      ∀ d ∈ (deleteDeck s online r₁ id).state.store.decks, d.id ≠ id) ∧
    ((deleteNote (deleteNote s online r₁ id).state online r₂ id).state
        = (deleteNote s online r₁ id).state ∧
      ∀ n ∈ (deleteNote s online r₁ id).state.store.notes, n.id ≠ id) ∧
    ((deleteTest (deleteTest s online r₁ id).state online r₂ id).state
        = (deleteTest s online r₁ id).state ∧
      ∀ t ∈ (deleteTest s online r₁ id).state.store.tests, t.id ≠ id) := by
  refine ⟨⟨?_, ?_⟩, ⟨?_, ?_⟩, ⟨?_, ?_⟩⟩
  · simp [deleteDeck, filter_idem]
  · intro d hd
    simp [deleteDeck] at hd
    exact hd.2
  · simp [deleteNote, filter_idem]
  · intro n hn
    simp [deleteNote] at hn
    exact hn.2
  · simp [deleteTest, filter_idem]
  · intro t ht
    simp [deleteTest] at ht
    exact ht.2

/-- C9: starting from an empty local community mirror, when no remote
data is obtainable — offline, network error / abort-timeout, or a
non-success response — `getCommunityItems()` returns the fixed seed set,
which is non-empty, and persists it to the local mirror. -/
theorem getCommunityItems_empty_cache_seeds (tok : Option String)
    (st : LocalStore) (now : Nat) (r : RemoteOutcome (List CommunityItem))
    (body : List CommunityItem) :
    (getCommunityItems ⟨tok, { st with community := [] }⟩ false r now).result
        = .ok (communitySeeds now) ∧
    (getCommunityItems ⟨tok, { st with community := [] }⟩ false r now).state.store.community
        = communitySeeds now ∧
    (getCommunityItems ⟨tok, { st with community := [] }⟩ true .netError now).result
        = .ok (communitySeeds now) ∧
    (getCommunityItems ⟨tok, { st with community := [] }⟩ true .netError now).state.store.community
        = communitySeeds now ∧
    (getCommunityItems ⟨tok, { st with community := [] }⟩ true (.status false body) now).result
        = .ok (communitySeeds now) ∧
    (getCommunityItems ⟨tok, { st with community := [] }⟩ true (.status false body) now).state.store.community
        = communitySeeds now ∧
    communitySeeds now ≠ [] := by
  refine ⟨rfl, rfl, rfl, rfl, rfl, rfl, by simp [communitySeeds]⟩

/-- C10: `logout()` clears the in-memory credential and removes the
persisted credential from the local store (it also clears the persisted
user profile), while the cached decks, notes, tests, stats, chats and
community collections are all left unchanged, and no remote request is
issued. -/
theorem logout_clears_credential_keeps_data (s : ApiState) :
    (logout s).state.token = none ∧
    (logout s).state.store.token = none ∧
    (logout s).state.store.decks = s.store.decks ∧
    (logout s).state.store.notes = s.store.notes ∧
    (logout s).state.store.tests = s.store.tests ∧
    (logout s).state.store.stats = s.store.stats ∧
    (logout s).state.store.chats = s.store.chats ∧
    (logout s).state.store.community = s.store.community ∧
    (logout s).requested = false :=
  ⟨rfl, rfl, rfl, rfl, rfl, rfl, rfl, rfl, rfl⟩

/-- C4: when the connectivity oracle reports offline, no operation of the
`ApiService` issues a remote request (`requested = false` across the whole
surface), and `login` / `register` reject immediately with their offline
error messages, likewise without issuing a request. -/
theorem offline_no_remote_request :
    (∀ s r em pw, (login s false r em pw).requested = false ∧
        (login s false r em pw).result = .error "Offline. Cannot login.") ∧
    (∀ s r em pw nm, (register s false r em pw nm).requested = false ∧
        (register s false r em pw nm).result = .error "Offline. Cannot register.") ∧
    (∀ s r, (getMe s false r).requested = false) ∧
    (∀ s p, (saveProfile s p).requested = false) ∧
    (∀ s r tm cs es, (savePreferences s false r tm cs es).requested = false) ∧
    (∀ s, (logout s).requested = false) ∧
    (∀ s r, (getDecks s false r).requested = false) ∧
    (∀ s r d, (createDeck s false r d).requested = false) ∧
    (∀ s r d, (updateDeck s false r d).requested = false) ∧
    (∀ s r i, (deleteDeck s false r i).requested = false) ∧
    (∀ s r, (getNotes s false r).requested = false) ∧
    (∀ s r n, (saveNote s false r n).requested = false) ∧
    (∀ s r i, (deleteNote s false r i).requested = false) ∧
    (∀ s r, (getTests s false r).requested = false) ∧
    (∀ s r t, (addTest s false r t).requested = false) ∧
    (∀ s r i, (deleteTest s false r i).requested = false) ∧
    (∀ s r, (getStats s false r).requested = false) ∧
    (∀ s r st, (syncStats s false r st).requested = false) ∧
    (∀ s r, (getChatSessions s false r).requested = false) ∧
    (∀ s r c, (saveChatSession s false r c).requested = false) ∧
    (∀ s r it ty an u n, (shareToCommunity s false r it ty an u n).requested = false) ∧
    (∀ s r n, (getCommunityItems s false r n).requested = false) ∧
    (∀ s r i, (incrementDownload s false r i).requested = false) := by
  refine ⟨?_, ?_, ?_, ?_, ?_, ?_, ?_, ?_, ?_, ?_, ?_, ?_, ?_, ?_, ?_, ?_, ?_, ?_,
    ?_, ?_, ?_, ?_, ?_⟩ <;> intros <;>
  simp [login, register, getMe, saveProfile, savePreferences, logout, getDecks,
    createDeck, updateDeck, deleteDeck, getNotes, saveNote, deleteNote, getTests,
    addTest, deleteTest, getStats, syncStats, getChatSessions, saveChatSession,
    shareToCommunity, getCommunityItems, incrementDownload]

theorem isOk_getMe (s : ApiState) (online : Bool) (r : RemoteOutcome UserObj) :
    isOk (getMe s online r).result = true := by
  rcases s with ⟨tok, st⟩
  rcases tok <;> cases online <;> rcases r with _ | ⟨ok, body⟩ <;>
    first | rfl | (cases ok <;> rfl)

theorem isOk_getDecks (s : ApiState) (online : Bool) (r : RemoteOutcome (List Deck)) :
    isOk (getDecks s online r).result = true := by
  rcases s with ⟨tok, st⟩
  rcases tok <;> cases online <;> rcases r with _ | ⟨ok, body⟩ <;>
    first | rfl | (cases ok <;> rfl)

theorem isOk_getNotes (s : ApiState) (online : Bool) (r : RemoteOutcome (List Note)) :
    isOk (getNotes s online r).result = true := by
  rcases s with ⟨tok, st⟩
  rcases tok <;> cases online <;> rcases r with _ | ⟨ok, body⟩ <;>
    first | rfl | (cases ok <;> rfl)

theorem isOk_getTests (s : ApiState) (online : Bool) (r : RemoteOutcome (List Test)) :
    isOk (getTests s online r).result = true := by
  rcases s with ⟨tok, st⟩
  rcases tok <;> cases online <;> rcases r with _ | ⟨ok, body⟩ <;>
    first | rfl | (cases ok <;> rfl)

theorem isOk_getStats (s : ApiState) (online : Bool) (r : RemoteOutcome (Option UserStats)) :
    isOk (getStats s online r).result = true := by
  rcases s with ⟨tok, st⟩
  rcases tok <;> cases online <;> rcases r with _ | ⟨ok, body⟩ <;>
    first | rfl | (cases ok <;> first | rfl | (rcases body <;> rfl))

theorem isOk_getChatSessions (s : ApiState) (online : Bool)
    (r : RemoteOutcome (List ChatSession)) :
    isOk (getChatSessions s online r).result = true := by
  rcases s with ⟨tok, st⟩
  rcases tok <;> cases online <;> rcases r with _ | ⟨ok, body⟩ <;>
    first | rfl | (cases ok <;> rfl)

theorem isOk_getCommunityItems (s : ApiState) (online : Bool)
    (r : RemoteOutcome (List CommunityItem)) (now : Nat) :
    isOk (getCommunityItems s online r now).result = true := by
  cases online <;> rcases r with _ | ⟨ok, body⟩ <;>
    first | rfl | (cases ok <;> rfl)

/-- C5: every data operation other than `login` and `register` resolves
(its promise is never rejected) for every outcome of the attempted remote
call — network error, abort/timeout, or non-success status — while
`login` and `register` reject exactly on offline, network error, or
non-ok status, each carrying a non-empty human-readable message. -/
theorem data_ops_never_throw :
    (∀ s online r, isOk (getMe s online r).result = true) ∧
    (∀ s p, isOk (saveProfile s p).result = true) ∧
    (∀ s online r tm cs es, isOk (savePreferences s online r tm cs es).result = true) ∧
    (∀ s, isOk (logout s).result = true) ∧
    (∀ s online r, isOk (getDecks s online r).result = true) ∧
    (∀ s online r d, isOk (createDeck s online r d).result = true) ∧
    (∀ s online r d, isOk (updateDeck s online r d).result = true) ∧
    (∀ s online r i, isOk (deleteDeck s online r i).result = true) ∧
    (∀ s online r, isOk (getNotes s online r).result = true) ∧
    (∀ s online r n, isOk (saveNote s online r n).result = true) ∧
    (∀ s online r i, isOk (deleteNote s online r i).result = true) ∧
    (∀ s online r, isOk (getTests s online r).result = true) ∧
    (∀ s online r t, isOk (addTest s online r t).result = true) ∧
    (∀ s online r i, isOk (deleteTest s online r i).result = true) ∧
    (∀ s online r, isOk (getStats s online r).result = true) ∧
    (∀ s online r st, isOk (syncStats s online r st).result = true) ∧
    (∀ s online r, isOk (getChatSessions s online r).result = true) ∧
    (∀ s online r c, isOk (saveChatSession s online r c).result = true) ∧
    (∀ s online r it ty an u n, isOk (shareToCommunity s online r it ty an u n).result = true) ∧
    (∀ s online r n, isOk (getCommunityItems s online r n).result = true) ∧
    (∀ s online r i, isOk (incrementDownload s online r i).result = true) ∧
    (∀ s r em pw, (login s false r em pw).result = .error "Offline. Cannot login.") ∧
    (∀ s em pw, (login s true .netError em pw).result = .error "Failed to fetch") ∧
    (∀ s b em pw, (login s true (.status false b) em pw).result = .error "Login failed") ∧
    (∀ s r em pw nm, (register s false r em pw nm).result = .error "Offline. Cannot register.") ∧
    (∀ s em pw nm, (register s true .netError em pw nm).result = .error "Failed to fetch") ∧
    (∀ s b em pw nm, (register s true (.status false b) em pw nm).result = .error "Registration failed") ∧
    ("Offline. Cannot login." ≠ "" ∧ "Offline. Cannot register." ≠ "" ∧
      "Failed to fetch" ≠ "" ∧ "Login failed" ≠ "" ∧ "Registration failed" ≠ "") := by
  refine ⟨isOk_getMe, fun _ _ => rfl, fun _ _ _ _ _ _ => rfl, fun _ => rfl,
    isOk_getDecks, fun _ _ _ _ => rfl, fun _ _ _ _ => rfl, fun _ _ _ _ => rfl,
    isOk_getNotes, fun _ _ _ _ => rfl, fun _ _ _ _ => rfl,
    isOk_getTests, fun _ _ _ _ => rfl, fun _ _ _ _ => rfl,
    isOk_getStats, fun _ _ _ _ => rfl,
    isOk_getChatSessions, fun _ _ _ _ => rfl,
    fun _ _ _ _ _ _ _ _ => rfl,
    isOk_getCommunityItems, fun _ _ _ _ => rfl,
    fun _ _ _ _ => rfl, fun _ _ _ => rfl, fun _ _ _ _ => rfl,
    fun _ _ _ _ _ => rfl, fun _ _ _ _ => rfl, fun _ _ _ _ _ => rfl,
    ?_, ?_, ?_, ?_, ?_⟩ <;> decide

/-- C2 (counterexample): with a credential held and the oracle online, a
successful remote fetch in `getTests` and `getChatSessions` returns the
response but does NOT overwrite the local mirror, and `getStats` does not
cache a null response — refuting the claim that every read-collection
operation overwrites its mirror on success. -/
theorem read_success_mirror_not_overwritten_cex :
    (getTests ⟨some "tk", store0⟩ true (.status true [testNew])).result = .ok [testNew] ∧
    (getTests ⟨some "tk", store0⟩ true (.status true [testNew])).state.store.tests = [] ∧
    ([] : List Test) ≠ [testNew] ∧
    (getChatSessions ⟨some "tk", store0⟩ true (.status true [chatNew])).result = .ok [chatNew] ∧
    (getChatSessions ⟨some "tk", store0⟩ true (.status true [chatNew])).state.store.chats = [] ∧
    ([] : List ChatSession) ≠ [chatNew] ∧
    (getStats ⟨some "tk", { store0 with stats := some ⟨7, []⟩ }⟩ true (.status true none)).result = .ok none ∧
    (getStats ⟨some "tk", { store0 with stats := some ⟨7, []⟩ }⟩ true (.status true none)).state.store.stats = some ⟨7, []⟩ ∧
    some (⟨7, []⟩ : UserStats) ≠ none :=
  ⟨rfl, rfl, by decide, rfl, rfl, by decide, rfl, rfl, by decide⟩

/-- C2 (amended): with a credential held and the oracle online, a
successful remote fetch makes `getDecks` / `getNotes` overwrite their
local mirror with the response and return it; `getStats` does so only for
a non-null response and returns a null response without caching it;
`getTests` / `getChatSessions` return the response leaving the mirror
untouched; and on any remote failure (network error or non-success
status) every read operation returns its current local mirror and leaves
the whole service state unchanged. -/
theorem read_collection_remote_behaviour (tk : String) (st : LocalStore)
    (decksB : List Deck) (notesB : List Note) (testsB : List Test)
    (statsB : UserStats) (chatsB : List ChatSession) :
    ((getDecks ⟨some tk, st⟩ true (.status true decksB)).result = .ok decksB ∧
      (getDecks ⟨some tk, st⟩ true (.status true decksB)).state.store = { st with decks := decksB } ∧
      (getDecks ⟨some tk, st⟩ true .netError).result = .ok st.decks ∧
      (getDecks ⟨some tk, st⟩ true .netError).state = ⟨some tk, st⟩ ∧
      (getDecks ⟨some tk, st⟩ true (.status false decksB)).result = .ok st.decks ∧
      (getDecks ⟨some tk, st⟩ true (.status false decksB)).state = ⟨some tk, st⟩) ∧
    ((getNotes ⟨some tk, st⟩ true (.status true notesB)).result = .ok notesB ∧
      (getNotes ⟨some tk, st⟩ true (.status true notesB)).state.store = { st with notes := notesB } ∧
      (getNotes ⟨some tk, st⟩ true .netError).result = .ok st.notes ∧
      (getNotes ⟨some tk, st⟩ true .netError).state = ⟨some tk, st⟩ ∧
      (getNotes ⟨some tk, st⟩ true (.status false notesB)).result = .ok st.notes ∧
      (getNotes ⟨some tk, st⟩ true (.status false notesB)).state = ⟨some tk, st⟩) ∧
    ((getStats ⟨some tk, st⟩ true (.status true (some statsB))).result = .ok (some statsB) ∧
      (getStats ⟨some tk, st⟩ true (.status true (some statsB))).state.store = { st with stats := some statsB } ∧
      (getStats ⟨some tk, st⟩ true (.status true none)).result = .ok none ∧
      (getStats ⟨some tk, st⟩ true (.status true none)).state = ⟨some tk, st⟩ ∧
      (getStats ⟨some tk, st⟩ true .netError).result = .ok st.stats ∧
      (getStats ⟨some tk, st⟩ true .netError).state = ⟨some tk, st⟩ ∧
      (getStats ⟨some tk, st⟩ true (.status false (some statsB))).result = .ok st.stats ∧
      (getStats ⟨some tk, st⟩ true (.status false (some statsB))).state = ⟨some tk, st⟩) ∧
    ((getTests ⟨some tk, st⟩ true (.status true testsB)).result = .ok testsB ∧
      (getTests ⟨some tk, st⟩ true (.status true testsB)).state = ⟨some tk, st⟩ ∧
      (getTests ⟨some tk, st⟩ true .netError).result = .ok st.tests ∧
      (getTests ⟨some tk, st⟩ true .netError).state = ⟨some tk, st⟩ ∧
      (getTests ⟨some tk, st⟩ true (.status false testsB)).result = .ok st.tests ∧
      (getTests ⟨some tk, st⟩ true (.status false testsB)).state = ⟨some tk, st⟩) ∧
    ((getChatSessions ⟨some tk, st⟩ true (.status true chatsB)).result = .ok chatsB ∧
      (getChatSessions ⟨some tk, st⟩ true (.status true chatsB)).state = ⟨some tk, st⟩ ∧
      (getChatSessions ⟨some tk, st⟩ true .netError).result = .ok st.chats ∧
      (getChatSessions ⟨some tk, st⟩ true .netError).state = ⟨some tk, st⟩ ∧
      (getChatSessions ⟨some tk, st⟩ true (.status false chatsB)).result = .ok st.chats ∧
      (getChatSessions ⟨some tk, st⟩ true (.status false chatsB)).state = ⟨some tk, st⟩) :=
  ⟨⟨rfl, rfl, rfl, rfl, rfl, rfl⟩, ⟨rfl, rfl, rfl, rfl, rfl, rfl⟩,
    ⟨rfl, rfl, rfl, rfl, rfl, rfl, rfl, rfl⟩, ⟨rfl, rfl, rfl, rfl, rfl, rfl⟩,
    ⟨rfl, rfl, rfl, rfl, rfl, rfl⟩⟩

/-- C1 (counterexample): `createDeck` performs an unconditional `unshift`
with no id check, so calling it with a deck whose id is already in the
local mirror leaves TWO items with that id in the mirror, refuting the
claim that every upsert keeps exactly one. -/
theorem createDeck_existing_id_duplicates :
    (createDeck ⟨none, { store0 with decks := [deckOld] }⟩ false .netError deckNew).state.store.decks
        = [deckNew, deckOld] ∧
    ((createDeck ⟨none, { store0 with decks := [deckOld] }⟩ false .netError deckNew).state.store.decks.countP
        (fun x => x.id == deckNew.id)) = 2 :=
  ⟨rfl, by decide⟩

/-- C1 (amended): for `updateDeck`, `saveNote` and `saveChatSession`
called with an item whose id occurs (exactly once) in the corresponding
local mirror — the mirror being `prefix ++ old :: suffix` with the id
nowhere else — the mirror afterwards is `prefix ++ new :: suffix`: exactly
one item with that id, carrying the new fields, at the old item's
position.  (`createDeck`, by contrast, always duplicates; see the
counterexample.) -/
theorem upsert_existing_id_replaces_in_place
    (tok : Option String) (st : LocalStore) (online : Bool) (r : RemoteOutcome Unit)
    (l₁ l₂ : List Deck) (b d : Deck)
    (hb : b.id = d.id) (h1 : ∀ x ∈ l₁, x.id ≠ d.id) (h2 : ∀ x ∈ l₂, x.id ≠ d.id)
    (m₁ m₂ : List Note) (bn n : Note)
    (hbn : bn.id = n.id) (hm1 : ∀ x ∈ m₁, x.id ≠ n.id) (hm2 : ∀ x ∈ m₂, x.id ≠ n.id)
    (c₁ c₂ : List ChatSession) (bc c : ChatSession)
    (hbc : bc.id = c.id) (hc1 : ∀ x ∈ c₁, x.id ≠ c.id) (hc2 : ∀ x ∈ c₂, x.id ≠ c.id) :
    ((updateDeck ⟨tok, { st with decks := l₁ ++ b :: l₂ }⟩ online r d).state.store.decks
        = l₁ ++ d :: l₂ ∧
      (l₁ ++ d :: l₂).countP (fun x => x.id == d.id) = 1) ∧
    ((saveNote ⟨tok, { st with notes := m₁ ++ bn :: m₂ }⟩ online r n).state.store.notes
        = m₁ ++ n :: m₂ ∧
      (m₁ ++ n :: m₂).countP (fun x => x.id == n.id) = 1) ∧
    ((saveChatSession ⟨tok, { st with chats := c₁ ++ bc :: c₂ }⟩ online r c).state.store.chats
        = c₁ ++ c :: c₂ ∧
      (c₁ ++ c :: c₂).countP (fun x => x.id == c.id) = 1) := by
  have hfd := jsFindIndex_append_cons (fun x : Deck => x.id == d.id) b l₂
    (by simpa using hb) l₁ (fun x hx => by simpa using h1 x hx)
  have hfn := jsFindIndex_append_cons (fun x : Note => x.id == n.id) bn m₂
    (by simpa using hbn) m₁ (fun x hx => by simpa using hm1 x hx)
  have hfc := jsFindIndex_append_cons (fun x : ChatSession => x.id == c.id) bc c₂
    (by simpa using hbc) c₁ (fun x hx => by simpa using hc1 x hx)
  refine ⟨⟨?_, ?_⟩, ⟨?_, ?_⟩, ⟨?_, ?_⟩⟩
  · simp [updateDeck, hfd, set_length_append_cons]
  · exact countP_append_cons_unique _ l₁ l₂ d
      (fun x hx => by simpa using h1 x hx) (fun x hx => by simpa using h2 x hx)
      (by simp)
  · simp [saveNote, hfn, set_length_append_cons]
  · exact countP_append_cons_unique _ m₁ m₂ n
      (fun x hx => by simpa using hm1 x hx) (fun x hx => by simpa using hm2 x hx)
      (by simp)
  · simp [saveChatSession, hfc, set_length_append_cons]
  · exact countP_append_cons_unique _ c₁ c₂ c
      (fun x hx => by simpa using hc1 x hx) (fun x hx => by simpa using hc2 x hx)
      (by simp)

/-- Witness for C1 (amended) at concrete inputs: a two-element mirror with
the matched item in second position is updated in place for all three
operations. -/
theorem upsert_existing_id_replaces_in_place_witness :
    ((updateDeck ⟨some "tk", { store0 with decks := [deckOther] ++ deckOld :: [] }⟩ true .netError deckNew).state.store.decks
        = [deckOther] ++ deckNew :: [] ∧
      ([deckOther] ++ deckNew :: []).countP (fun x => x.id == deckNew.id) = 1) ∧
    ((saveNote ⟨some "tk", { store0 with notes := [noteOther] ++ noteOld :: [] }⟩ true .netError noteNew).state.store.notes
        = [noteOther] ++ noteNew :: [] ∧
      ([noteOther] ++ noteNew :: []).countP (fun x => x.id == noteNew.id) = 1) ∧
    ((saveChatSession ⟨some "tk", { store0 with chats := [chatOther] ++ chatOld :: [] }⟩ true .netError chatNew).state.store.chats
        = [chatOther] ++ chatNew :: [] ∧
      ([chatOther] ++ chatNew :: []).countP (fun x => x.id == chatNew.id) = 1) :=
  upsert_existing_id_replaces_in_place (some "tk") store0 true .netError
    [deckOther] [] deckOld deckNew (by decide) (by decide) (by decide)
    [noteOther] [] noteOld noteNew (by decide) (by decide) (by decide)
    [chatOther] [] chatOld chatNew (by decide) (by decide) (by decide)

/-- A populated local store used for concrete evaluations. -/
def store1 : LocalStore :=
  { token := none, user := none, decks := [deckOther], notes := [noteOther]
    tests := [testOld], stats := none, chats := [chatOther], community := [commA] }

/-- C3 (counterexample): `addTest` appends at the TAIL of the mirror
(`push`, not `unshift`), and `updateDeck` with an unmatched id does not
insert the deck at all — refuting the claim that every upsert with a new
id ends up at the head of the mirror. -/
theorem addTest_tail_updateDeck_noop_cex :
    (addTest ⟨none, { store0 with tests := [testOld] }⟩ false .netError testNew).state.store.tests
        = [testOld, testNew] ∧
    (addTest ⟨none, { store0 with tests := [testOld] }⟩ false .netError testNew).state.store.tests.head?
        ≠ some testNew ∧
    (updateDeck ⟨none, store0⟩ false .netError deckNew).state.store.decks = [] :=
  ⟨rfl, by decide, rfl⟩

/-- C3 (amended): for an item whose id does not occur in the local
mirror, `createDeck`, `saveNote` and `saveChatSession` insert it at the
head of the mirror; `addTest` instead appends it at the tail; and
`updateDeck` does not insert it — the mirror is left unchanged. -/
theorem upsert_new_id_position
    (tok : Option String) (st : LocalStore) (online : Bool) (r : RemoteOutcome Unit)
    (d : Deck) (hd : ∀ x ∈ st.decks, x.id ≠ d.id)
    (n : Note) (hn : ∀ x ∈ st.notes, x.id ≠ n.id)
    (c : ChatSession) (hc : ∀ x ∈ st.chats, x.id ≠ c.id)
    (t : Test) :
    (createDeck ⟨tok, st⟩ online r d).state.store.decks = d :: st.decks ∧
    (saveNote ⟨tok, st⟩ online r n).state.store.notes = n :: st.notes ∧
    (saveChatSession ⟨tok, st⟩ online r c).state.store.chats = c :: st.chats ∧
    (addTest ⟨tok, st⟩ online r t).state.store.tests = st.tests ++ [t] ∧
    (updateDeck ⟨tok, st⟩ online r d).state.store.decks = st.decks := by
  have hfd := jsFindIndex_eq_none (fun x : Deck => x.id == d.id) st.decks
    (fun x hx => by simpa using hd x hx)
  have hfn := jsFindIndex_eq_none (fun x : Note => x.id == n.id) st.notes
    (fun x hx => by simpa using hn x hx)
  have hfc := jsFindIndex_eq_none (fun x : ChatSession => x.id == c.id) st.chats
    (fun x hx => by simpa using hc x hx)
  exact ⟨rfl, by simp [saveNote, hfn], by simp [saveChatSession, hfc], rfl,
    by simp [updateDeck, hfd]⟩

/-- Witness for C3 (amended) at concrete inputs over a populated store. -/
theorem upsert_new_id_position_witness :
    (createDeck ⟨some "tk", store1⟩ true .netError deckNew).state.store.decks
        = deckNew :: store1.decks ∧
    (saveNote ⟨some "tk", store1⟩ true .netError noteNew).state.store.notes
        = noteNew :: store1.notes ∧
    (saveChatSession ⟨some "tk", store1⟩ true .netError chatNew).state.store.chats
        = chatNew :: store1.chats ∧
    (addTest ⟨some "tk", store1⟩ true .netError testNew).state.store.tests
        = store1.tests ++ [testNew] ∧
    (updateDeck ⟨some "tk", store1⟩ true .netError deckNew).state.store.decks
        = store1.decks :=
  upsert_new_id_position (some "tk") store1 true .netError
    deckNew (by decide) noteNew (by decide) chatNew (by decide) testNew

/-- C6: publishing a community item whose id already occurs in the
community store is idempotent on both sides — client-side `_localShare`
(via `shareToCommunity` with a uuid already present in the mirror) leaves
the mirror unchanged and still resolves, and the server's
`POST /api/community` handler leaves its store unchanged and answers
`success: true` with the "Already shared" message. -/
theorem publish_existing_id_no_duplicate
    (s : ApiState) (online : Bool) (r : RemoteOutcome Unit)
    (item : ItemData) (ty : CKind) (an uuid : String) (now : Nat)
    (hmem : ∃ x ∈ s.store.community, x.id = uuid)
    (dbComm : List CommunityItem) (body : CommunityItem) (freshId : String) (snow : Nat)
    (hdb : ∃ x ∈ dbComm, x.id = body.id) :
    (shareToCommunity s online r item ty an uuid now).state.store.community = s.store.community ∧
    (shareToCommunity s online r item ty an uuid now).result = .ok () ∧
    (postCommunity dbComm body freshId snow).1 = dbComm ∧
    (postCommunity dbComm body freshId snow).2.success = true ∧
    (postCommunity dbComm body freshId snow).2.message = some "Already shared" := by
  obtain ⟨x, hx, hxid⟩ := hmem
  obtain ⟨y, hy, hyid⟩ := hdb
  have h1 : (s.store.community.find? (fun c => c.id == uuid)).isSome := by
    rw [List.find?_isSome]
    exact ⟨x, hx, by simp [hxid]⟩
  have h2 : (dbComm.find? (fun i => i.id == body.id)).isSome := by
    rw [List.find?_isSome]
    exact ⟨y, hy, by simp [hyid]⟩
  refine ⟨?_, rfl, ?_, ?_, ?_⟩
  · simp [shareToCommunity, localShare, h1]
  · simp [postCommunity, h2]
  · simp [postCommunity, h2]
  · simp [postCommunity, h2]

/-- Witness for C6 at concrete inputs: re-sharing the already-present id
`"u1"` locally, and re-posting the already-present item `commB` to the
server store `[commA, commB]`. -/
theorem publish_existing_id_no_duplicate_witness :
    (shareToCommunity ⟨none, store1⟩ true .netError (.deck deckOther) .deck "a" "u1" 5).state.store.community
        = (⟨none, store1⟩ : ApiState).store.community ∧
    (shareToCommunity ⟨none, store1⟩ true .netError (.deck deckOther) .deck "a" "u1" 5).result = .ok () ∧
    (postCommunity [commA, commB] commB "fresh" 9).1 = [commA, commB] ∧
    (postCommunity [commA, commB] commB "fresh" 9).2.success = true ∧
    (postCommunity [commA, commB] commB "fresh" 9).2.message = some "Already shared" :=
  publish_existing_id_no_duplicate ⟨none, store1⟩ true .netError
    (.deck deckOther) .deck "a" "u1" 5 (by decide)
    [commA, commB] commB "fresh" 9 (by decide)

/-- C8: `incrementDownload` never rejects; for an id absent from the
local community mirror it leaves the mirror unchanged, and for an id with
a (first) occurrence `c` — the mirror being `prefix ++ c :: suffix` with
the id nowhere in `prefix` — exactly that item's downloads counter is
incremented by one and every other item is unchanged. -/
theorem incrementDownload_local_behaviour
    (tok : Option String) (st : LocalStore) (online : Bool) (r : RemoteOutcome Unit)
    (idA : String) (hA : ∀ x ∈ st.community, x.id ≠ idA)
    (l₁ l₂ : List CommunityItem) (c : CommunityItem)
    (h1 : ∀ x ∈ l₁, x.id ≠ c.id) :
    (incrementDownload ⟨tok, st⟩ online r idA).state.store.community = st.community ∧
    (incrementDownload ⟨tok, st⟩ online r idA).result = .ok () ∧
    (incrementDownload ⟨tok, { st with community := l₁ ++ c :: l₂ }⟩ online r c.id).state.store.community
        = l₁ ++ { c with downloads := c.downloads + 1 } :: l₂ ∧
    (incrementDownload ⟨tok, { st with community := l₁ ++ c :: l₂ }⟩ online r c.id).result = .ok () := by
  have hfA := jsFindIndex_eq_none (fun x : CommunityItem => x.id == idA) st.community
    (fun x hx => by simpa using hA x hx)
  have hf1 := jsFindIndex_append_cons (fun x : CommunityItem => x.id == c.id) c l₂
    (by simp) l₁ (fun x hx => by simpa using h1 x hx)
  refine ⟨?_, rfl, ?_, rfl⟩
  · simp [incrementDownload, localIncrement, hfA]
  · simp [incrementDownload, localIncrement, hf1, modifyAt_length_append_cons]

/-- Witness for C8 at concrete inputs: incrementing the absent id
`"zzz"` on `store1` and the present id of `commB` behind `commA`. -/
theorem incrementDownload_local_behaviour_witness :
    (incrementDownload ⟨none, store1⟩ true .netError "zzz").state.store.community
        = store1.community ∧
    (incrementDownload ⟨none, store1⟩ true .netError "zzz").result = .ok () ∧
    (incrementDownload ⟨none, { store1 with community := [commA] ++ commB :: [] }⟩ true .netError commB.id).state.store.community
        = [commA] ++ { commB with downloads := commB.downloads + 1 } :: [] ∧
    (incrementDownload ⟨none, { store1 with community := [commA] ++ commB :: [] }⟩ true .netError commB.id).result = .ok () :=
  incrementDownload_local_behaviour none store1 true .netError
    "zzz" (by decide) [commA] [] commB (by decide)

end CardSnaps
